import Mathlib

/-!
Verification of the natural-language specification of the
CreditCardDataExtraction repository against a shallow embedding of its
single source file, src/app.py.

The embedding models Python strings as Lean String values, Python str
slicing and strip as explicit list operations on the character data, the
inline JSON extraction of lines 228 to 232 as list splitting around the
first opening brace and the last closing brace, json.loads as an
executable recursive-descent JSON parser, and the Streamlit display
pipeline of lines 239 to 287 as a pure function over the parsed result.
-/

/-! ## Python string primitives -/

/-- Python slicing s[:n], taking the first n characters of the string. -/
def pyTake (s : String) (n : Nat) : String :=
  (s.data.take n).asString

/-- Whitespace as recognized by Python str.strip. -/
def isPyWs (c : Char) : Bool :=
  c = ' ' || c = '\t' || c = '\n' || c = '\r' || c = Char.ofNat 11 || c = Char.ofNat 12

/-- Python str.strip, removing leading and trailing whitespace. -/
def pyStrip (s : String) : String :=
  (((s.data.dropWhile isPyWs).reverse.dropWhile isPyWs).reverse).asString

/-- Python s.split(sep, 1) for a one-character separator: the parts before
and after the first occurrence, or none when the separator is absent
(in which case indexing element 1 of the split raises IndexError). -/
def splitFirst (c : Char) : List Char → Option (List Char × List Char)
  | [] => none
  | x :: xs =>
    if x = c then some ([], xs)
    else (splitFirst c xs).map (fun ab => (x :: ab.1, ab.2))

/-- Python s.rsplit(sep, 1) for a one-character separator: the parts before
and after the last occurrence, or none when the separator is absent. -/
def rsplitLast (c : Char) (xs : List Char) : Option (List Char × List Char) :=
  match splitFirst c xs.reverse with
  | none => none
  | some ab => some (ab.2.reverse, ab.1.reverse)

/-! ## JSON values and an executable model of json.loads -/

/-- JSON values as produced by json.loads. Numbers keep their source
lexeme, since the code never computes with them. Objects are ordered
key-value lists with the Python dict insertion semantics. -/
inductive Json where
  | null
  | bool (b : Bool)
  | num (lit : String)
  | str (s : String)
  | arr (elems : List Json)
  | obj (members : List (String × Json))

/-- Python dict insertion: replace the value in place when the key exists,
append otherwise. -/
def dinsert (d : List (String × Json)) (k : String) (v : Json) :
    List (String × Json) :=
  match d with
  | [] => [(k, v)]
  | kv :: rest => if kv.1 = k then (k, v) :: rest else kv :: dinsert rest k v

/-- Python dict lookup by key. -/
def dlookup (k : String) (d : List (String × Json)) : Option Json :=
  match d with
  | [] => none
  | kv :: rest => if kv.1 = k then some kv.2 else dlookup k rest

/-- Python dict membership test. -/
def dcontains (k : String) (d : List (String × Json)) : Bool :=
  (dlookup k d).isSome

/-- Python dict.pop with a default: the dict without the entry for the key. -/
def dpop (k : String) (d : List (String × Json)) : List (String × Json) :=
  d.filter (fun kv => decide (kv.1 ≠ k))

/-- Whitespace skipped by the JSON grammar. -/
def isJsonWs (c : Char) : Bool :=
  c = ' ' || c = '\t' || c = '\n' || c = '\r'

/-- Drop leading JSON whitespace. -/
def skipWs (s : List Char) : List Char := s.dropWhile isJsonWs

/-- JSON string escape characters handled by the model. -/
def escMap (c : Char) : Option Char :=
  if c = '"' then some '"'
  else if c = '\\' then some '\\'
  else if c = '/' then some '/'
  else if c = 'b' then some (Char.ofNat 8)
  else if c = 'f' then some (Char.ofNat 12)
  else if c = 'n' then some '\n'
  else if c = 'r' then some '\r'
  else if c = 't' then some '\t'
  else none

/-- Parse the body of a JSON string after the opening quote, returning the
decoded content and the remaining input after the closing quote. -/
def parseStringBody : List Char → Option (List Char × List Char)
  | [] => none
  | '"' :: rest => some ([], rest)
  | '\\' :: rest =>
    match rest with
    | [] => none
    | e :: rest2 =>
      match escMap e with
      | none => none
      | some c =>
        match parseStringBody rest2 with
        | none => none
        | some br => some (c :: br.1, br.2)
  | c :: rest =>
    if c.val < 32 then none
    else
      match parseStringBody rest with
      | none => none
      | some br => some (c :: br.1, br.2)

/-- Leading decimal digits of the input, and the rest. -/
def digitSpan (s : List Char) : List Char × List Char :=
  (s.takeWhile Char.isDigit, s.dropWhile Char.isDigit)

/-- Optional fraction part of a JSON number. -/
def parseFrac (s : List Char) : Option (List Char × List Char) :=
  match s with
  | '.' :: rest =>
    match digitSpan rest with
    | ([], _) => none
    | (ds, r) => some ('.' :: ds, r)
  | _ => some ([], s)

/-- Tail of a JSON exponent after the letter e or E. -/
def parseExpTail (e : Char) (s : List Char) : Option (List Char × List Char) :=
  match s with
  | '+' :: r =>
    match digitSpan r with
    | ([], _) => none
    | (ds, rr) => some (e :: '+' :: ds, rr)
  | '-' :: r =>
    match digitSpan r with
    | ([], _) => none
    | (ds, rr) => some (e :: '-' :: ds, rr)
  | _ =>
    match digitSpan s with
    | ([], _) => none
    | (ds, rr) => some (e :: ds, rr)

/-- Optional exponent part of a JSON number. -/
def parseExpPart (s : List Char) : Option (List Char × List Char) :=
  match s with
  | 'e' :: rest => parseExpTail 'e' rest
  | 'E' :: rest => parseExpTail 'E' rest
  | _ => some ([], s)

/-- Parse a JSON number at the head of the input, returning its lexeme and
the remaining input. Leading zeros are rejected as in the JSON grammar. -/
def parseNumber (s : List Char) : Option (List Char × List Char) :=
  let sp : List Char × List Char :=
    match s with
    | '-' :: rest => (['-'], rest)
    | _ => ([], s)
  match digitSpan sp.2 with
  | ([], _) => none
  | (ip, r1) =>
    if 1 < ip.length ∧ ip.head? = some '0' then none
    else
      match parseFrac r1 with
      | none => none
      | some fr =>
        match parseExpPart fr.2 with
        | none => none
        | some er => some (sp.1 ++ ip ++ fr.1 ++ er.1, er.2)

/-- Consume an expected literal from the head of the input. -/
def dropLit : List Char → List Char → Option (List Char)
  | [], s => some s
  | _ :: _, [] => none
  | p :: ps, c :: cs => if c = p then dropLit ps cs else none

mutual

/-- Parse one JSON value, with fuel bounding the recursion depth. -/
def parseValue : Nat → List Char → Option (Json × List Char)
  | 0, _ => none
  | Nat.succ fuel, s =>
    match skipWs s with
    | [] => none
    | '\x7b' :: rest => parseObjectBody fuel rest
    | '[' :: rest => parseArrayBody fuel rest
    | '"' :: rest =>
      match parseStringBody rest with
      | none => none
      | some br => some (Json.str br.1.asString, br.2)
    | 't' :: rest => (dropLit ['r', 'u', 'e'] rest).map (fun r => (Json.bool true, r))
    | 'f' :: rest => (dropLit ['a', 'l', 's', 'e'] rest).map (fun r => (Json.bool false, r))
    | 'n' :: rest => (dropLit ['u', 'l', 'l'] rest).map (fun r => (Json.null, r))
    | other => (parseNumber other).map (fun lr => (Json.num lr.1.asString, lr.2))

/-- Parse the body of a JSON object after the opening brace. -/
def parseObjectBody : Nat → List Char → Option (Json × List Char)
  | 0, _ => none
  | Nat.succ fuel, s =>
    match skipWs s with
    | '\x7d' :: rest => some (Json.obj [], rest)
    | _ => parseMembers fuel [] s

/-- Parse one or more key-value members of a JSON object. -/
def parseMembers : Nat → List (String × Json) → List Char → Option (Json × List Char)
  | 0, _, _ => none
  | Nat.succ fuel, acc, s =>
    match skipWs s with
    | '"' :: rest =>
      match parseStringBody rest with
      | none => none
      | some kr =>
        match skipWs kr.2 with
        | ':' :: r2 =>
          match parseValue fuel r2 with
          | none => none
          | some vr =>
            match skipWs vr.2 with
            | ',' :: r4 => parseMembers fuel (dinsert acc kr.1.asString vr.1) r4
            | '\x7d' :: r4 => some (Json.obj (dinsert acc kr.1.asString vr.1), r4)
            | _ => none
        | _ => none
    | _ => none

/-- Parse the body of a JSON array after the opening bracket. -/
def parseArrayBody : Nat → List Char → Option (Json × List Char)
  | 0, _ => none
  | Nat.succ fuel, s =>
    match skipWs s with
    | ']' :: rest => some (Json.arr [], rest)
    | _ => parseElems fuel [] s

/-- Parse one or more elements of a JSON array. -/
def parseElems : Nat → List Json → List Char → Option (Json × List Char)
  | 0, _, _ => none
  | Nat.succ fuel, acc, s =>
    match parseValue fuel s with
    | none => none
    | some vr =>
      match skipWs vr.2 with
      | ',' :: r2 => parseElems fuel (acc ++ [vr.1]) r2
      | ']' :: r2 => some (Json.arr (acc ++ [vr.1]), r2)
      | _ => none

end

/-- Model of json.loads: parse one JSON value and require that only
whitespace remains. The fuel bound is generous enough for any input of
the given length. -/
def loads (s : List Char) : Option Json :=
  match parseValue (3 * s.length + 8) s with
  | none => none
  | some vr => if skipWs vr.2 = [] then some vr.1 else none

/-! ## The Result Reconciler, src/app.py lines 228 to 232 -/

/-- Result of the inline JSON extraction over the model completion text:
either the parsed JSON value, or the fallback dictionary holding the
original completion under the key raw_output. -/
inductive ReconcileResult where
  | parsed (value : Json)
  | rawOutput (text : String)

/-- Argument passed to json.loads on line 230: an opening brace, then the
text after the first opening brace of the completion, truncated just
before the last closing brace of that remainder when one exists, then a
closing brace. Returns none exactly when the completion has no opening
brace, in which case line 229 raises IndexError. -/
def jsonCandidate (s : String) : Option (List Char) :=
  match splitFirst '\x7b' s.data with
  | none => none
  | some pa =>
    match rsplitLast '\x7d' pa.2 with
    | none => some ('\x7b' :: (pa.2 ++ ['\x7d']))
    | some ba => some ('\x7b' :: (ba.1 ++ ['\x7d']))

/-- Lines 228 to 232 of src/app.py: try the brace extraction and
json.loads, and fall back to the raw_output dictionary on any failure. -/
def reconcile (response_text : String) : ReconcileResult :=
  match jsonCandidate response_text with
  | none => ReconcileResult.rawOutput response_text
  | some c =>
    match loads c with
    | some j => ReconcileResult.parsed j
    | none => ReconcileResult.rawOutput response_text

/-- Claim-side definition following the spec words: the greedy span from
the first opening brace to the last closing brace of the completion text,
when both exist in that order. -/
def greedyBraceSpan (s : String) : Option (List Char) :=
  match splitFirst '\x7b' s.data with
  | none => none
  | some pa =>
    match rsplitLast '\x7d' pa.2 with
    | none => none
    | some ba => some ('\x7b' :: (ba.1 ++ ['\x7d']))

/-- Claim-side predicate: the character list is a well-formed JSON object
text, starting with an opening brace, ending with a closing brace, and
parsing in full as a JSON object. -/
def isJsonObjectText (l : List Char) : Bool :=
  (match l with | '\x7b' :: _ => true | _ => false) &&
  (match l.getLast? with | some '\x7d' => true | _ => false) &&
  (match loads l with | some (Json.obj _) => true | _ => false)

/-- Claim-side count of substrings of the text that are well-formed JSON
object texts, used to state that a completion contains exactly one
well-formed JSON object. -/
def jsonObjectSubstringCount (s : String) : Nat :=
  (((List.range (s.data.length + 1)).map (fun i =>
    ((List.range (s.data.length + 1)).filter (fun n =>
      isJsonObjectText ((s.data.drop i).take n))).length))).sum

/-! ## The Text Normalizer, src/app.py lines 174 to 183 -/

/-- One page of the uploaded PDF: the extractable text layer as returned
by page.extract_text, which may be absent, and the external OCR
collaborator modelled as a function from render resolution to the
pytesseract output on the page image rendered at that resolution. -/
structure PdfPage where
  textLayer : Option String
  renderOCR : Nat → String

/-- Lines 178 to 181 of src/app.py, per page: keep the text layer unless
it is absent, empty, or its stripped length is below 40; otherwise render
the page at resolution 300 and return the OCR output. -/
def normalizePage (p : PdfPage) : String :=
  match p.textLayer with
  | none => p.renderOCR 300
  | some t => if t = "" ∨ (pyStrip t).length < 40 then p.renderOCR 300 else t

/-- Branch taken by the line 179 condition: true when the text layer is
kept, false when the OCR path runs. -/
def pageUsesTextLayer (p : PdfPage) : Bool :=
  match p.textLayer with
  | none => false
  | some t => !(decide (t = "" ∨ (pyStrip t).length < 40))

/-- Lines 174 to 183 of src/app.py: normalize every page and join the
page texts with newlines. -/
def extract_text_from_pdf (pages : List PdfPage) : String :=
  String.intercalate "\n" (pages.map normalizePage)

/-- Claim-side predicate: the text contains a run of three or more
letters. -/
def threeLetterRunAux : List Char → Bool
  | a :: b :: c :: rest =>
    (a.isAlpha && b.isAlpha && c.isAlpha) || threeLetterRunAux (b :: c :: rest)
  | _ => false

/-- Claim-side predicate on strings: at least one run of three or more
letters. -/
def hasThreeLetterRun (s : String) : Bool := threeLetterRunAux s.data

/-- Claim-side predicate: the text contains at least one letter. -/
def containsLetter (s : String) : Bool := s.data.any Char.isAlpha

/-! ## The outbound LLM call, src/app.py lines 185 to 192 and 209 to 223 -/

/-- One chat message of the outbound request. -/
structure ChatMessage where
  role : String
  content : String

/-- The outbound chat-completion request assembled by query_groq. -/
structure GroqRequest where
  model : String
  messages : List ChatMessage
  temperature : ℚ
  maxTokens : Nat

/-- Lines 186 to 191 of src/app.py: the request built from the prompt. -/
def query_groq_request (prompt : String) : GroqRequest :=
  { model := "llama-3.1-8b-instant"
  , messages := [{ role := "user", content := prompt }]
  , temperature := 2 / 10
  , maxTokens := 800 }

/-- Fixed text of the prompt before the field list, lines 209 to 212. -/
def promptIntro : String :=
  "\nYou are an expert financial document parser.\nExtract the following fields from this credit card statement:\n"

/-- Fixed text of the prompt between the field list and the statement
text, lines 212 to 219. -/
def promptMiddle : String :=
  ".\n\nIf \x27transaction information\x27 is selected, extract it as a list of objects with keys:\n[\"date\", \"description\", \"amount\", \"type (credit/debit)\"].\n\nFormat output strictly as valid JSON only. No text outside the JSON.\n\nStatement text:\n"

/-- Lines 209 to 221 of src/app.py: the full prompt, holding the joined
selected field names and the first 7000 characters of the extracted
statement text. -/
def buildPrompt (selected_fields : List String) (pdf_text : String) : String :=
  promptIntro ++ (String.intercalate ", " selected_fields ++
    (promptMiddle ++ (pyTake pdf_text 7000 ++ "\n")))

/-- Outbound chat-completion calls made for one upload on the success
path, lines 222 to 223: exactly the single call on the assembled
prompt. -/
def llmCalls (selected_fields : List String) (pdf_text : String) : List GroqRequest :=
  [query_groq_request (buildPrompt selected_fields pdf_text)]

/-! ## Startup and key check, src/app.py lines 16 to 17 and 127 to 131 -/

/-- The OpenAI client configuration constructed on line 131. -/
structure ClientConfig where
  baseUrl : String
  apiKey : String

/-- Outcome of the top of the script: either the run halts at st.stop
with the displayed error message and no client, or it continues with the
constructed client. -/
inductive StartupOutcome where
  | halted (message : String)
  | running (client : ClientConfig)

/-- Error message displayed on line 128. -/
def groqErrorMessage : String :=
  "⚠️ GROQ_API_KEY missing in \x60.env\x60. Please add it."

/-- Lines 127 to 131 of src/app.py: halt when the GROQ_API_KEY value is
absent or empty, otherwise construct the client. -/
def startup (groq_key : Option String) : StartupOutcome :=
  match groq_key with
  | none => StartupOutcome.halted groqErrorMessage
  | some k =>
    if k = "" then StartupOutcome.halted groqErrorMessage
    else StartupOutcome.running { baseUrl := "https://api.groq.com/openai/v1", apiKey := k }

/-- Uploads processed by the run: st.stop on line 129 ends the script, so
a halted startup processes nothing. -/
def processedUploads (groq_key : Option String) (uploads : List (List PdfPage)) :
    List String :=
  match startup groq_key with
  | StartupOutcome.halted _ => []
  | StartupOutcome.running _ => uploads.map extract_text_from_pdf

/-! ## The transactions CSV guard, src/app.py line 281 -/

/-- Valid first character of a Python identifier, ASCII approximation. -/
def isPythonIdentStart (c : Char) : Bool := c.isAlpha || c = '_'

/-- Valid non-first character of a Python identifier. -/
def isPythonIdentChar (c : Char) : Bool := c.isAlphanum || c = '_'

/-- Whether a string is a valid Python identifier: names bound by
ordinary assignment, parameters, or imports always satisfy this. -/
def isPythonIdent (s : String) : Bool :=
  match s.data with
  | [] => false
  | c :: rest => isPythonIdentStart c && rest.all isPythonIdentChar

/-- Line 281 of src/app.py: the guard on the transactions CSV download
button tests whether the string with a space, transaction information,
occurs among the names in locals(). -/
def txDownloadOffered (localNames : List String) : Bool :=
  decide ("transaction information" ∈ localNames)

/-! ## Fallback regex transaction extraction, spec section 4.2 step 2 -/

/-- Modelled from the spec: one line-item transaction record of the
fallback extraction. The fallback code itself is present only in other
variants of the repository and is absent from src/app.py. -/
structure Transaction where
  date : String
  description : String
  amount : String
  type : String

/-- Modelled from the spec: whether a token matches the date capture of
the fixed fallback regex, two digits, a slash, two digits, a slash, four
digits. -/
def isDateToken (t : List Char) : Bool :=
  match t with
  | [a, b, '/', c, d, '/', e, f, g, h] =>
    a.isDigit && b.isDigit && c.isDigit && d.isDigit &&
      e.isDigit && f.isDigit && g.isDigit && h.isDigit
  | _ => false

/-- Modelled from the spec: whether a token matches the amount capture of
the fixed fallback regex, an optional leading minus sign then digits with
optional comma separators and an optional decimal part. -/
def isAmountToken (t : List Char) : Bool :=
  match t with
  | '-' :: rest =>
    (match rest with
     | [] => false
     | c :: _ => c.isDigit && rest.all (fun ch => ch.isDigit || ch = ',' || ch = '.'))
  | [] => false
  | c :: _ => c.isDigit && t.all (fun ch => ch.isDigit || ch = ',' || ch = '.')

/-- Split a character list into maximal runs of non-space characters. -/
def wordsAux (acc : List Char) : List Char → List (List Char)
  | [] => if acc = [] then [] else [acc.reverse]
  | c :: rest =>
    if isPyWs c then
      if acc = [] then wordsAux [] rest else acc.reverse :: wordsAux [] rest
    else wordsAux (c :: acc) rest

/-- Whitespace-separated tokens of a line. -/
def splitWsWords (s : List Char) : List (List Char) := wordsAux [] s

/-- Modelled from the spec: the fallback regex applied to one line of the
raw statement text, capturing date, description and amount, and inferring
the type from a leading minus sign on the amount. Absent from src/app.py;
follows spec section 4.2 step 2 and the example in section 8. -/
def fallbackParseLine (line : String) : Option Transaction :=
  match splitWsWords line.data with
  | [] => none
  | date :: rest =>
    match rest.getLast? with
    | none => none
    | some amt =>
      let desc := rest.dropLast
      if desc = [] then none
      else if isDateToken date && isAmountToken amt then
        some { date := date.asString
             , description := String.intercalate " " (desc.map List.asString)
             , amount := amt.asString
             , type := if amt.head? = some '-' then "credit" else "debit" }
      else none

/-- Modelled from the spec: the fallback extraction applied line by line
to the raw statement text. -/
def fallbackExtract (text : String) : List Transaction :=
  (text.split (fun c => c = '\n')).filterMap fallbackParseLine

/-! ## The display pipeline, src/app.py lines 239 to 287 -/

/-- Observable outputs of the results display: the raw warning text when
the result is unstructured, the transaction table rows, the summary
key-value table, and the dictionary written to the summary CSV. -/
structure DisplayOutput where
  rawWarning : Option Json
  txRows : Option (List Json)
  summaryTable : Option (List (String × Json))
  summaryCsv : List (String × Json)

/-- Lines 239 to 279 of src/app.py: the raw_output branch shows the raw
text and still writes the whole result to the summary CSV; otherwise a
transaction list under the transaction information key is shown as a
table and popped from the result before the summary table and CSV. -/
def displayResult (result : List (String × Json)) : DisplayOutput :=
  if dcontains "raw_output" result then
    { rawWarning := dlookup "raw_output" result
    , txRows := none
    , summaryTable := none
    , summaryCsv := result }
  else
    match dlookup "transaction information" result with
    | some (Json.arr rows) =>
      { rawWarning := none
      , txRows := some rows
      , summaryTable := some (dpop "transaction information" result)
      , summaryCsv := dpop "transaction information" result }
    | _ =>
      { rawWarning := none
      , txRows := none
      , summaryTable := some result
      , summaryCsv := result }

/-! ## Concrete instances used in witnesses and counterexamples -/

/-- Fifty-five digit characters: a page text whose stripped length is far
above the threshold but which holds no run of letters. -/
def digitsOnlyPage : String := "0000000000000000000000000000000000000000000000000000000"

/-- A page text of total length fifty that holds letters but whose
stripped length is three, below the threshold. -/
def paddedShortPage : String := "abc                                               "

/-- A fixed OCR collaborator used in concrete instances. -/
def ocrStub : Nat → String := fun _ => "OCR RESULT"

/-- Fifty letter a characters. -/
def fiftyAs : String := "aaaaaaaaaaaaaaaaaaaaaaaaaaaaaaaaaaaaaaaaaaaaaaaaaa"

/-- Fifty letter b characters. -/
def fiftyBs : String := "bbbbbbbbbbbbbbbbbbbbbbbbbbbbbbbbbbbbbbbbbbbbbbbbbb"

/-- Names bound at module scope in src/app.py by imports, assignments and
function definitions, all valid Python identifiers. -/
def moduleLocalNames : List String :=
  ["io", "os", "json", "pdfplumber", "pytesseract", "Image", "pd", "st",
   "OpenAI", "load_dotenv", "datetime", "groq_key", "client", "issuer",
   "customer", "card_variant", "card_last", "bill_from", "bill_to",
   "due_date", "total_due", "min_due", "transactions", "selected_fields",
   "uploaded_file", "extract_text_from_pdf", "query_groq", "extract_btn",
   "pdf_bytes", "pdf_text", "prompt", "response_text", "json_part",
   "result", "tx_df", "html", "df", "f", "v", "e", "page", "t", "img",
   "texts", "pdf", "completion", "key", "value"]

/-! ## Sanity checks of the executable model -/

example : loads "\x7b\"a\": 1\x7d".data = some (Json.obj [("a", Json.num "1")]) := rfl
example : loads "\x7b\x7d".data = some (Json.obj []) := rfl
example : loads "\x7b\"a\": [1, true]\x7d".data
    = some (Json.obj [("a", Json.arr [Json.num "1", Json.bool true])]) := rfl
example : loads "\x7b\"a\": 1\x7d \x7d".data = none := rfl
example : loads "not json".data = none := rfl
example : digitsOnlyPage.length = 55 := by decide
example : paddedShortPage.length = 50 := by decide
example : fiftyAs.length = 50 := by decide

/-! ## Lemmas about the brace splitting -/

theorem splitFirst_not_mem (c : Char) (xs : List Char) (h : c ∉ xs) :
    splitFirst c xs = none := by
  induction xs with
  | nil => rfl
  | cons x xt ih =>
    have hx : ¬(x = c) := fun e => h (e ▸ List.mem_cons_self x xt)
    have hxt : c ∉ xt := fun m => h (List.mem_cons_of_mem _ m)
    simp [splitFirst, hx, ih hxt]

theorem splitFirst_append (c : Char) (xs ys : List Char) (h : c ∉ xs) :
    splitFirst c (xs ++ c :: ys) = some (xs, ys) := by
  induction xs with
  | nil => simp [splitFirst]
  | cons x xt ih =>
    have hx : ¬(x = c) := fun e => h (e ▸ List.mem_cons_self x xt)
    have hxt : c ∉ xt := fun m => h (List.mem_cons_of_mem _ m)
    simp [splitFirst, hx, ih hxt]

theorem rsplitLast_append (c : Char) (xs ys : List Char) (h : c ∉ ys) :
    rsplitLast c (xs ++ c :: ys) = some (xs, ys) := by
  have hrev : (xs ++ c :: ys).reverse = ys.reverse ++ c :: xs.reverse := by
    simp
  have h2 : c ∉ ys.reverse := by simpa using h
  unfold rsplitLast
  rw [hrev, splitFirst_append c _ _ h2]
  simp

theorem data_lb : "\x7b".data = ['\x7b'] := rfl

theorem data_rb : "\x7d".data = ['\x7d'] := rfl

theorem rawOutput_ne_parsed (s : String) (j : Json) :
    ReconcileResult.rawOutput s ≠ ReconcileResult.parsed j :=
  fun h => ReconcileResult.noConfusion h

theorem str_append_assoc (a b c : String) : (a ++ b) ++ c = a ++ (b ++ c) := by
  cases a with
  | mk da =>
    cases b with
    | mk db =>
      cases c with
      | mk dc =>
        show String.mk ((da ++ db) ++ dc) = String.mk (da ++ (db ++ dc))
        rw [List.append_assoc]

/-! ## Dictionary lemmas -/

theorem dlookup_dpop_self (k : String) (d : List (String × Json)) :
    dlookup k (dpop k d) = none := by
  induction d with
  | nil => rfl
  | cons kv rest ih =>
    by_cases hk : kv.1 = k
    · simpa [dpop, List.filter_cons, hk] using ih
    · simpa [dpop, List.filter_cons, hk, dlookup] using ih

theorem dlookup_dpop_ne (k k' : String) (hne : k' ≠ k) (d : List (String × Json)) :
    dlookup k' (dpop k d) = dlookup k' d := by
  induction d with
  | nil => rfl
  | cons kv rest ih =>
    have hne' : ¬(k = k') := fun e => hne e.symm
    by_cases hk : kv.1 = k
    · simpa [dpop, List.filter_cons, hk, dlookup, hne'] using ih
    · by_cases hk' : kv.1 = k'
      · simp [dpop, List.filter_cons, hk, dlookup, hk', hne]
      · simpa [dpop, List.filter_cons, hk, dlookup, hk'] using ih

theorem dcontains_dpop_self (k : String) (d : List (String × Json)) :
    dcontains k (dpop k d) = false := by
  simp [dcontains, dlookup_dpop_self]

/-! ## Claim theorems -/

/-- Claim C9: the Reconciler step is total. For every completion string
the extraction of lines 228 to 232 returns either a parsed JSON value or
the raw_output dictionary over the unmodified input, so no malformed
model output can crash the request. -/
theorem reconcile_total (s : String) :
    (∃ j, reconcile s = ReconcileResult.parsed j) ∨
      reconcile s = ReconcileResult.rawOutput s := by
  cases h1 : jsonCandidate s with
  | none => exact Or.inr (by simp [reconcile, h1])
  | some c =>
    cases h2 : loads c with
    | none => exact Or.inr (by simp [reconcile, h1, h2])
    | some j => exact Or.inl ⟨j, by simp [reconcile, h1, h2]⟩

/-- Claim C2 counterexample: the completion holding an opening brace, a
quoted key a, a colon and the digit one, with no closing brace, has no
greedy first-to-last-brace span at all, yet the Reconciler does not
return the raw_output dictionary: line 230 re-wraps the remainder in
braces and json.loads succeeds, repairing the missing closing brace. -/
theorem reconcile_repairs_unclosed_brace :
    greedyBraceSpan "\x7b\"a\": 1" = none ∧
      reconcile "\x7b\"a\": 1" = ReconcileResult.parsed (Json.obj [("a", Json.num "1")]) ∧
      reconcile "\x7b\"a\": 1" ≠ ReconcileResult.rawOutput "\x7b\"a\": 1" :=
  ⟨rfl, rfl, fun h => ReconcileResult.noConfusion h⟩

/-- Claim C2 as amended: whenever the completion has no opening brace at
all, or the brace-wrapped candidate of line 230 fails to parse as JSON,
the Reconciler returns the raw_output dictionary over the original,
unmodified input, and this path never raises. Texts with an opening brace
but a missing closing brace can instead be repaired by the wrapping. -/
theorem reconcile_raw_when_unparseable (s : String) :
    ('\x7b' ∉ s.data → reconcile s = ReconcileResult.rawOutput s) ∧
      (∀ c, jsonCandidate s = some c → loads c = none →
        reconcile s = ReconcileResult.rawOutput s) := by
  constructor
  · intro h
    have hn : jsonCandidate s = none := by
      simp [jsonCandidate, splitFirst_not_mem '\x7b' s.data h]
    simp [reconcile, hn]
  · intro c h1 h2
    simp [reconcile, h1, h2]

/-- Claim C2 witness: a completion with no braces at all is returned as
the raw_output dictionary. -/
theorem reconcile_raw_when_unparseable_witness :
    reconcile "no json at all" = ReconcileResult.rawOutput "no json at all" :=
  (reconcile_raw_when_unparseable "no json at all").1 (by decide)

/-- Claim C1 counterexample: the three-character completion of an opening
brace and two closing braces contains exactly one well-formed JSON object
substring, the empty object, yet the Reconciler returns the raw_output
dictionary rather than the parsed empty mapping, because the span from
the first opening brace to the last closing brace includes the stray
second closing brace and fails to parse. -/
theorem reconcile_misses_lone_object :
    jsonObjectSubstringCount "\x7b\x7d\x7d" = 1 ∧
      reconcile "\x7b\x7d\x7d" = ReconcileResult.rawOutput "\x7b\x7d\x7d" ∧
      reconcile "\x7b\x7d\x7d" ≠ ReconcileResult.parsed (Json.obj []) :=
  ⟨by decide, rfl, rawOutput_ne_parsed "\x7b\x7d\x7d" (Json.obj [])⟩

/-- Claim C1 as amended: for any completion text of the form prefix, then
a well-formed brace-delimited JSON object, then suffix, where the prefix
holds no opening brace and the suffix no closing brace, the Reconciler
returns exactly the parsed mapping of that object. -/
theorem reconcile_single_object (p mid q : String) (j : Json)
    (hp : '\x7b' ∉ p.data) (hq : '\x7d' ∉ q.data)
    (hobj : loads ("\x7b" ++ mid ++ "\x7d").data = some j) :
    reconcile (p ++ ("\x7b" ++ mid ++ "\x7d") ++ q) = ReconcileResult.parsed j := by
  have h1 : splitFirst '\x7b' (p.data ++ '\x7b' :: (mid.data ++ '\x7d' :: q.data))
      = some (p.data, mid.data ++ '\x7d' :: q.data) :=
    splitFirst_append _ _ _ hp
  have h2 : rsplitLast '\x7d' (mid.data ++ '\x7d' :: q.data)
      = some (mid.data, q.data) := rsplitLast_append _ _ _ hq
  have hc : jsonCandidate (p ++ ("\x7b" ++ mid ++ "\x7d") ++ q)
      = some ('\x7b' :: (mid.data ++ ['\x7d'])) := by
    simp [jsonCandidate, h1, h2]
  have hmid : ("\x7b" ++ mid ++ "\x7d").data = '\x7b' :: (mid.data ++ ['\x7d']) := by
    simp [String.data_append, data_lb, data_rb]
  rw [hmid] at hobj
  simp [reconcile, hc, hobj]

/-- Claim C1 witness: a completion of brace-free noise around the JSON
object binding the key a to one parses to exactly that mapping. -/
theorem reconcile_single_object_witness :
    '\x7b' ∉ "noise ".data ∧ '\x7d' ∉ " tail".data ∧
      loads ("\x7b" ++ "\"a\": 1" ++ "\x7d").data = some (Json.obj [("a", Json.num "1")]) ∧
      reconcile ("noise " ++ ("\x7b" ++ "\"a\": 1" ++ "\x7d") ++ " tail")
        = ReconcileResult.parsed (Json.obj [("a", Json.num "1")]) :=
  ⟨by decide, by decide, rfl,
    reconcile_single_object "noise " "\"a\": 1" " tail" (Json.obj [("a", Json.num "1")])
      (by decide) (by decide) rfl⟩

/-- Claim C3 counterexample: the code of line 179 has no letter-run
condition. A page text of fifty-five digits has no run of three or more
letters, so the claimed condition demands the OCR output, yet the
Normalizer returns the text layer, which differs from the OCR output. -/
theorem normalize_ignores_letter_runs :
    hasThreeLetterRun digitsOnlyPage = false ∧
      normalizePage (PdfPage.mk (some digitsOnlyPage) ocrStub) = digitsOnlyPage ∧
      digitsOnlyPage ≠ ocrStub 300 :=
  ⟨by decide, rfl, by decide⟩

/-- Claim C3 as amended: for every PDF page, the Normalizer returns the
extracted text layer if and only if the layer is present, non-empty, and
its stripped length is at least 40; in every other case it returns the
OCR output of the page rendered at the fixed resolution 300. -/
theorem normalize_layer_condition (layer : Option String) (render : Nat → String) :
    (pageUsesTextLayer (PdfPage.mk layer render) = true ↔
      ∃ t, layer = some t ∧ t ≠ "" ∧ 40 ≤ (pyStrip t).length) ∧
      (∀ t, layer = some t → pageUsesTextLayer (PdfPage.mk layer render) = true →
        normalizePage (PdfPage.mk layer render) = t) ∧
      (pageUsesTextLayer (PdfPage.mk layer render) = false →
        normalizePage (PdfPage.mk layer render) = render 300) := by
  cases layer with
  | none =>
    refine ⟨?_, ?_, ?_⟩
    · simp [pageUsesTextLayer]
    · intro t ht; exact absurd ht (by simp)
    · intro _; rfl
  | some t =>
    refine ⟨?_, ?_, ?_⟩
    · constructor
      · intro h
        refine ⟨t, rfl, ?_, ?_⟩
        · intro he
          simp [pageUsesTextLayer, he] at h
        · by_contra hlt
          simp [pageUsesTextLayer] at h
          omega
      · rintro ⟨t', ht', hne, hlen⟩
        have : t' = t := by injection ht'.symm
        subst this
        simp [pageUsesTextLayer, hne]
        omega
    · intro t' ht' h
      have heq : t' = t := by injection ht'.symm
      subst heq
      simp [pageUsesTextLayer] at h
      have hcond : ¬(t' = "" ∨ (pyStrip t').length < 40) := by
        rintro (he | hl)
        · exact h.1 he
        · have := h.2
          omega
      simp [normalizePage, hcond]
    · intro h
      simp [pageUsesTextLayer] at h
      by_cases he : t = ""
      · simp [normalizePage, he]
      · have hl : (pyStrip t).length < 40 := h he
        simp [normalizePage, Or.inr hl]

/-- Claim C3 witness: a page of fifty letters keeps its text layer. -/
theorem normalize_layer_condition_witness :
    pageUsesTextLayer (PdfPage.mk (some fiftyAs) ocrStub) = true ∧
      normalizePage (PdfPage.mk (some fiftyAs) ocrStub) = fiftyAs :=
  ⟨(normalize_layer_condition (some fiftyAs) ocrStub).1.mpr
      ⟨fiftyAs, rfl, by decide, by decide⟩,
    (normalize_layer_condition (some fiftyAs) ocrStub).2.1 fiftyAs rfl
      ((normalize_layer_condition (some fiftyAs) ocrStub).1.mpr
        ⟨fiftyAs, rfl, by decide, by decide⟩)⟩

/-- Claim C4 counterexample: a page text of total length fifty that
contains letters but is mostly whitespace padding has stripped length
three, so the Normalizer discards it and returns the OCR output, against
the claim that any length-fifty lettered text is returned unmodified. -/
theorem normalize_drops_padded_page :
    paddedShortPage.length = 50 ∧
      containsLetter paddedShortPage = true ∧
      normalizePage (PdfPage.mk (some paddedShortPage) ocrStub) = ocrStub 300 ∧
      paddedShortPage ≠ ocrStub 300 :=
  ⟨by decide, by decide, rfl, by decide⟩

/-- Claim C4 as amended: for every page whose text layer has stripped
length at least 50 and contains letters, the Normalizer returns that text
unmodified and the OCR path is never invoked; for every page whose text
layer is absent, empty, or of stripped length below 40, the OCR output is
returned instead of the original text. -/
theorem normalize_thresholds (t : String) (render : Nat → String) :
    (50 ≤ (pyStrip t).length → containsLetter t = true →
      normalizePage (PdfPage.mk (some t) render) = t ∧
        pageUsesTextLayer (PdfPage.mk (some t) render) = true) ∧
      ((pyStrip t).length < 40 →
        normalizePage (PdfPage.mk (some t) render) = render 300) ∧
      (normalizePage (PdfPage.mk none render) = render 300) := by
  refine ⟨fun h50 _ => ?_, fun hshort => ?_, rfl⟩
  · have hemp : ¬(t = "") := by
      intro he
      rw [he] at h50
      have : (pyStrip "").length = 0 := rfl
      omega
    have hcond : ¬(t = "" ∨ (pyStrip t).length < 40) := by
      rintro (he | hl)
      · exact hemp he
      · omega
    constructor
    · simp [normalizePage, hcond]
    · simp [pageUsesTextLayer, hemp]
      omega
  · simp [normalizePage, Or.inr hshort]

/-- Claim C4 witness: a page of fifty letters is returned unmodified with
the text-layer branch taken. -/
theorem normalize_thresholds_witness :
    normalizePage (PdfPage.mk (some fiftyBs) ocrStub) = fiftyBs ∧
      pageUsesTextLayer (PdfPage.mk (some fiftyBs) ocrStub) = true :=
  (normalize_thresholds fiftyBs ocrStub).1 (by decide) (by decide)

/-- Claim C5: the fallback regex extraction, modelled from the spec, maps
the example line to the expected transaction with type debit, and maps a
line whose amount has a leading minus sign to a transaction with type
credit. -/
theorem fallback_line_examples :
    fallbackParseLine "12/05/2023 Grocery Store 1,250.50"
      = some { date := "12/05/2023", description := "Grocery Store"
             , amount := "1,250.50", type := "debit" } ∧
      (fallbackParseLine "12/05/2023 Grocery Store -1,250.50").map Transaction.type
        = some "credit" :=
  ⟨rfl, rfl⟩

/-- Claim C6: for every upload, exactly one outbound chat-completion call
is made, with the fixed model identifier, temperature 0.2, a max-token
budget of 800, and a single user-role message whose statement portion is
the first 7000 characters of the extracted text, alongside the joined
names of the user-selected fields. -/
theorem llm_call_shape (selected_fields : List String) (pdf_text : String) :
    llmCalls selected_fields pdf_text
      = [query_groq_request (buildPrompt selected_fields pdf_text)] ∧
      (query_groq_request (buildPrompt selected_fields pdf_text)).model
        = "llama-3.1-8b-instant" ∧
      (query_groq_request (buildPrompt selected_fields pdf_text)).temperature = 2 / 10 ∧
      (query_groq_request (buildPrompt selected_fields pdf_text)).maxTokens = 800 ∧
      (query_groq_request (buildPrompt selected_fields pdf_text)).messages
        = [{ role := "user", content := buildPrompt selected_fields pdf_text }] ∧
      (∃ a b, buildPrompt selected_fields pdf_text = a ++ (pyTake pdf_text 7000 ++ b)) ∧
      (∃ a b, buildPrompt selected_fields pdf_text
        = a ++ (String.intercalate ", " selected_fields ++ b)) ∧
      (pyTake pdf_text 7000).length ≤ 7000 := by
  refine ⟨rfl, rfl, rfl, rfl, rfl, ?_, ?_, ?_⟩
  · refine ⟨promptIntro ++ (String.intercalate ", " selected_fields ++ promptMiddle), "\n", ?_⟩
    rw [buildPrompt]
    rw [str_append_assoc, str_append_assoc]
  · exact ⟨promptIntro, promptMiddle ++ (pyTake pdf_text 7000 ++ "\n"), rfl⟩
  · have : (pyTake pdf_text 7000).length = (pdf_text.data.take 7000).length := rfl
    rw [this, List.length_take]
    omega

/-- Claim C7: when the GROQ_API_KEY environment value is absent, the run
halts immediately with the user-visible error message, no client is
constructed, and no upload is processed. -/
theorem missing_key_halts :
    startup none = StartupOutcome.halted groqErrorMessage ∧
      (∀ c, startup none ≠ StartupOutcome.running c) ∧
      (∀ uploads, processedUploads none uploads = []) :=
  ⟨rfl, fun _ h => StartupOutcome.noConfusion h, fun _ => rfl⟩

/-- Claim C8: the line 281 guard asks whether the string with an embedded
space, transaction information, is a name in locals(). Every name bound
at module scope by this script is a valid Python identifier, and a valid
identifier never holds a space, so the guard is always false and the
transactions CSV download is never offered, even when transactions were
successfully parsed. -/
theorem tx_download_never_offered (localNames : List String)
    (h : ∀ n ∈ localNames, isPythonIdent n = true) :
    txDownloadOffered localNames = false := by
  by_contra hc
  have htrue : txDownloadOffered localNames = true := by
    cases hb : txDownloadOffered localNames
    · exact absurd hb hc
    · rfl
  have hmem : "transaction information" ∈ localNames :=
    of_decide_eq_true htrue
  exact absurd (h _ hmem) (by decide)

/-- Claim C8 witness: over the actual module-scope names of src/app.py
the guard is false and the transactions CSV download is not offered. -/
theorem tx_download_never_offered_witness :
    txDownloadOffered moduleLocalNames = false :=
  tx_download_never_offered moduleLocalNames (by decide)

/-- Claim C10 counterexample: a parsed model output carrying both a
raw_output key and a transaction list parses successfully, but the
display then takes the raw branch, the pop on line 248 never runs, and
the summary CSV of line 273 still carries the transaction information
key, against the claim that it is removed whenever the parsed result
holds a transaction list. -/
theorem summary_keeps_transactions_on_raw_key :
    reconcile "\x7b\"raw_output\": 1, \"transaction information\": []\x7d"
      = ReconcileResult.parsed (Json.obj
          [("raw_output", Json.num "1"), ("transaction information", Json.arr [])]) ∧
      dlookup "transaction information"
          [("raw_output", Json.num "1"), ("transaction information", Json.arr [])]
        = some (Json.arr []) ∧
      dcontains "transaction information"
          ((displayResult
            [("raw_output", Json.num "1"), ("transaction information", Json.arr [])]).summaryCsv)
        = true :=
  ⟨rfl, rfl, rfl⟩

/-- Claim C10 as amended: when the parsed result does not contain the key
raw_output and contains a list under the key transaction information,
that key is removed from the result before the summary table and the
summary CSV are produced, and every other key-value pair of the result is
carried into the summary output unchanged. -/
theorem summary_drops_transactions (d : List (String × Json)) (rows : List Json)
    (hraw : dcontains "raw_output" d = false)
    (htx : dlookup "transaction information" d = some (Json.arr rows)) :
    (displayResult d).summaryCsv = dpop "transaction information" d ∧
      (displayResult d).summaryTable = some (dpop "transaction information" d) ∧
      dcontains "transaction information" ((displayResult d).summaryCsv) = false ∧
      (∀ k, k ≠ "transaction information" →
        dlookup k ((displayResult d).summaryCsv) = dlookup k d) := by
  have hdr : displayResult d =
      { rawWarning := none
      , txRows := some rows
      , summaryTable := some (dpop "transaction information" d)
      , summaryCsv := dpop "transaction information" d } := by
    simp [displayResult, hraw, htx]
  refine ⟨by rw [hdr], by rw [hdr], ?_, ?_⟩
  · rw [hdr]
    exact dcontains_dpop_self _ _
  · intro k hk
    rw [hdr]
    exact dlookup_dpop_ne _ _ hk _

/-- Claim C10 witness: on a concrete parsed result with a total amount
due and an empty transaction list, the pop happens and the other pair is
carried into the summary CSV unchanged. -/
theorem summary_drops_transactions_witness :
    dcontains "raw_output"
        [("total amount due", Json.num "100"), ("transaction information", Json.arr [])]
      = false ∧
      dlookup "transaction information"
          [("total amount due", Json.num "100"), ("transaction information", Json.arr [])]
        = some (Json.arr []) ∧
      dlookup "total amount due"
          ((displayResult
            [("total amount due", Json.num "100"), ("transaction information", Json.arr [])]).summaryCsv)
        = dlookup "total amount due"
            [("total amount due", Json.num "100"), ("transaction information", Json.arr [])] :=
  ⟨rfl, rfl,
    (summary_drops_transactions
      [("total amount due", Json.num "100"), ("transaction information", Json.arr [])]
      [] rfl rfl).2.2.2 "total amount due" (by decide)⟩
